import Mathlib

/-!
Verification development for the OneSip restaurant reservation workflow.

The definitions below are a shallow embedding of the JavaScript sources:
- the public reservation form handler (public/js/reservations.js and the
  success-UI variant of the same handler),
- the Firestore trigger sending notification emails (functions/index.js),
- the admin dashboard filtering and status-transition code,
- the authentication service (getUserData / onAuthStateChanged).

Statuses are kept as strings, as in the stringly-typed JavaScript code.
Server timestamps are modelled as natural numbers. Fallible backend calls
are modelled by Except-valued parameters.
-/

namespace OneSip

/-- A reservation document in the reservations collection. Field names and
types follow the form data built in the submit handler: optional fields are
Option-valued (the handler stores null for blank optional inputs), status is
a plain string, timestamps are server-assigned (modelled as Nat). -/
structure Reservation where
  id : String
  customerName : String
  customerPhone : String
  customerEmail : Option String
  partySize : String
  reservationDate : String
  reservationTime : String
  specialRequests : Option String
  status : String
  createdAt : Nat
  updatedAt : Nat
  emailError : Option String := none
  emailErrorTimestamp : Option Nat := none
deriving DecidableEq, Repr

/-- The field values read from the form on submit. -/
structure FormData where
  customerName : String
  customerPhone : String
  customerEmail : Option String
  partySize : String
  reservationDate : String
  reservationTime : String
  specialRequests : Option String
deriving DecidableEq, Repr

/-- The regular expression test from the submit handler:
a string matches the pattern starting with a digit 6 to 9 followed by exactly
nine more digits (ten characters in total, all digits). -/
def phoneRegexTest (s : String) : Bool :=
  match s.data with
  | [] => false
  | c :: rest =>
    (c == '6' || c == '7' || c == '8' || c == '9')
      && rest.length == 9 && rest.all Char.isDigit

/-- Removing every non-digit character, as the phone input handler does with
value.replace of all non-digits by the empty string. -/
def stripNonDigits (s : String) : String :=
  String.mk (s.data.filter Char.isDigit)

/-- The phone input handler: strip non-digits, then truncate to ten digits. -/
def phoneInputNormalize (s : String) : String :=
  String.mk ((stripNonDigits s).data.take 10)

/-- A calendar date as year, month, day, the value carried by a parsed
YYYY-MM-DD string from the date input. -/
structure Ymd where
  y : Nat
  m : Nat
  d : Nat
deriving DecidableEq, Repr

/-- Strict chronological order on calendar dates (lexicographic on year,
month, day), matching the comparison of the two midnight Date values in the
submit handler. -/
def ymdLt (a b : Ymd) : Bool :=
  Nat.blt a.y b.y
    || (Nat.beq a.y b.y
        && (Nat.blt a.m b.m || (Nat.beq a.m b.m && Nat.blt a.d b.d)))

/-- Splitting a character list at every dash, keeping empty components. -/
def splitOnDash (cs : List Char) (acc : List Char) : List (List Char) :=
  match cs with
  | [] => [acc.reverse]
  | c :: rest =>
    if c == '-' then acc.reverse :: splitOnDash rest []
    else splitOnDash rest (c :: acc)

/-- Decimal value of a digit list. -/
def digitsToNat (l : List Char) : Nat :=
  l.foldl (fun n c => 10 * n + (c.toNat - 48)) 0

/-- A non-empty all-digit component parses to its decimal value. -/
def parseNatComp (l : List Char) : Option Nat :=
  if l ≠ [] ∧ l.all Char.isDigit then some (digitsToNat l) else none

/-- Parsing a YYYY-MM-DD string the way the Date constructor does: three
dash-separated decimal components with the month and day in calendar range,
anything else yielding an invalid date (none). -/
def parseYMD (s : String) : Option Ymd :=
  match splitOnDash s.data [] with
  | [ys, ms, ds] =>
    match parseNatComp ys, parseNatComp ms, parseNatComp ds with
    | some y, some m, some d =>
      if 1 ≤ m ∧ m ≤ 12 ∧ 1 ≤ d ∧ d ≤ 31 then some ⟨y, m, d⟩ else none
    | _, _, _ => none
  | _ => none

/-- The past-date check of the submit handler: a parsed reservation date
strictly before today is rejected; an unparseable date never compares below
today (NaN comparisons are false), so it is not rejected by this check. -/
def dateCheckRejects (dateStr : String) (today : Ymd) : Bool :=
  match parseYMD dateStr with
  | some d => ymdLt d today
  | none => false

def phoneErrorMsg : String := "Please enter a valid 10-digit Indian phone number"

def dateErrorMsg : String := "Please select a future date"

def firebaseNotInitMsg : String :=
  "Firebase is not initialized. Please check your configuration."

def fallbackMessage : String :=
  "An error occurred. Please try again or call us directly."

def successMessage : String :=
  "✓ Reservation request submitted successfully! We will contact you shortly to confirm."

/-- The sequence of validation throws in the submit handler: the phone test
first, then the past-date check; none means validation passed. -/
def validationError (f : FormData) (today : Ymd) : Option String :=
  if phoneRegexTest f.customerPhone = false then some phoneErrorMsg
  else if dateCheckRejects f.reservationDate today = true then some dateErrorMsg
  else none

/-- The reservation document the handler inserts: the form fields plus
status pending and both timestamps set to the server time of the write. -/
def mkReservation (f : FormData) (newId : String) (now : Nat) : Reservation :=
  { id := newId
  , customerName := f.customerName
  , customerPhone := f.customerPhone
  , customerEmail := f.customerEmail
  , partySize := f.partySize
  , reservationDate := f.reservationDate
  , reservationTime := f.reservationTime
  , specialRequests := f.specialRequests
  , status := "pending"
  , createdAt := now
  , updatedAt := now
  , emailError := none
  , emailErrorTimestamp := none }

/-- Observable outcome of one run of the submit handler: the reservations
collection afterwards, the message shown, the submit-button state when the
handler returns, whether the form fields were cleared, and how many backend
add calls were issued. -/
structure SubmitOutcome where
  store : List Reservation
  messageText : String
  messageClass : String
  submitDisabled : Bool
  fieldsCleared : Bool
  networkCalls : Nat
deriving DecidableEq, Repr

/-- The catch block of the submit handler: show the error message when there
is one, else the generic fallback, with the error-mark prefix; re-enable the
submit button; leave the collection and the form fields untouched. -/
def errorOutcome (store : List Reservation) (msg : Option String)
    (calls : Nat) : SubmitOutcome :=
  { store := store
  , messageText := "✗ " ++ msg.getD fallbackMessage
  , messageClass := "form-message form-message-error"
  , submitDisabled := false
  , fieldsCleared := false
  , networkCalls := calls }

/-- One run of the reservation submit handler. The button is disabled on
entry; validation throws are caught by the catch block before any backend
call; when validation passes and firebase is initialized, exactly one add
call is issued, whose outcome addResult either assigns a new document id or
fails with an optional error message. On success the handler appends the new
pending document, shows the success message, resets the form, and returns
with the button still disabled (the later re-enabling is an event of its
own, modelled separately). -/
def submitReservation (store : List Reservation) (f : FormData) (today : Ymd)
    (firebaseReady : Bool) (addResult : Except (Option String) String)
    (now : Nat) : SubmitOutcome :=
  match validationError f today with
  | some m => errorOutcome store (some m) 0
  | none =>
    if firebaseReady = false then errorOutcome store (some firebaseNotInitMsg) 0
    else
      match addResult with
      | .error em => errorOutcome store em 1
      | .ok newId =>
        { store := store ++ [mkReservation f newId now]
        , messageText := successMessage
        , messageClass := "form-message form-message-success"
        , submitDisabled := true
        , fieldsCleared := true
        , networkCalls := 1 }

/-- Sample valid form input used by witnesses. -/
def sampleForm : FormData :=
  { customerName := "Asha Rao"
  , customerPhone := "9876543210"
  , customerEmail := some "asha@example.com"
  , partySize := "2"
  , reservationDate := "2026-01-10"
  , reservationTime := "19:00"
  , specialRequests := none }

/-- Sample reference day used by witnesses. -/
def sampleToday : Ymd := ⟨2025, 11, 20⟩

/-- A string passing the phone pattern is all digits, so stripping
non-digits leaves it unchanged. -/
theorem phoneRegexTest_fixed_by_strip (s : String)
    (h : phoneRegexTest s = true) : stripNonDigits s = s := by
  unfold phoneRegexTest at h
  have hfilter : s.data.filter Char.isDigit = s.data := by
    cases hs : s.data with
    | nil => rfl
    | cons c rest =>
      rw [hs] at h
      simp only [Bool.and_eq_true, Bool.or_eq_true, beq_iff_eq,
        List.all_eq_true] at h
      obtain ⟨⟨hc, _⟩, hall⟩ := h
      apply List.filter_eq_self.mpr
      intro a ha
      rcases List.mem_cons.mp ha with rfl | ha2
      · rcases hc with ((rfl | rfl) | rfl) | rfl <;> decide
      · exact hall a ha2
  unfold stripNonDigits
  rw [hfilter]

/-- If the stripped phone fails the pattern, so does the raw phone. -/
theorem phoneRegexTest_of_strip_false (s : String)
    (h : phoneRegexTest (stripNonDigits s) = false) :
    phoneRegexTest s = false := by
  cases hb : phoneRegexTest s with
  | false => rfl
  | true => rw [phoneRegexTest_fixed_by_strip s hb] at h; rw [hb] at h; exact h

/-- C1: for every form submission that passes validation, the handler
issues exactly one backend add call; on a successful add the collection
afterwards is the old collection with exactly one new document appended,
that document has status pending and both timestamps set to the server time
of the write, and every previously stored record is still present unchanged
(the new collection extends the old one, so no other record changes at
all, in particular no status). -/
theorem submitReservation_valid_inserts_one_pending
    (store : List Reservation) (f : FormData) (today : Ymd) (newId : String)
    (now : Nat) (hval : validationError f today = none) :
    (∀ res : Except (Option String) String,
        (submitReservation store f today true res now).networkCalls = 1)
    ∧ (submitReservation store f today true (Except.ok newId) now).store
        = store ++ [mkReservation f newId now]
    ∧ (mkReservation f newId now).status = "pending"
    ∧ (mkReservation f newId now).createdAt = now
    ∧ (mkReservation f newId now).updatedAt = now
    ∧ ∀ r ∈ store,
        r ∈ (submitReservation store f today true (Except.ok newId) now).store := by
  refine ⟨?_, ?_, rfl, rfl, rfl, ?_⟩
  · intro res
    cases res <;> simp [submitReservation, hval, errorOutcome]
  · simp [submitReservation, hval]
  · intro r hr
    simp only [submitReservation, hval]
    exact List.mem_append.mpr (Or.inl hr)

/-- Witness for C1 at a concrete valid submission. -/
theorem submitReservation_valid_inserts_one_pending_witness :
    (submitReservation [] sampleForm sampleToday true (Except.ok "r1") 5).store
      = [mkReservation sampleForm "r1" 5]
    ∧ (mkReservation sampleForm "r1" 5).status = "pending"
    ∧ (submitReservation [] sampleForm sampleToday true (Except.ok "r1") 5).networkCalls = 1 := by
  have h := submitReservation_valid_inserts_one_pending [] sampleForm sampleToday
    "r1" 5 (by decide)
  exact ⟨by simpa using h.2.1, h.2.2.1, h.1 (Except.ok "r1")⟩

/-- C2: for every phone string that fails the pattern of one digit 6 to 9
followed by nine digits after stripping non-digits, the submission is
rejected before any write: the collection is unchanged, no backend call is
issued, and the phone validation message is shown. -/
theorem submitReservation_bad_phone_rejected
    (store : List Reservation) (f : FormData) (today : Ymd)
    (firebaseReady : Bool) (res : Except (Option String) String) (now : Nat)
    (h : phoneRegexTest (stripNonDigits f.customerPhone) = false) :
    (submitReservation store f today firebaseReady res now).store = store
    ∧ (submitReservation store f today firebaseReady res now).networkCalls = 0
    ∧ (submitReservation store f today firebaseReady res now).messageText
        = "✗ " ++ phoneErrorMsg := by
  have hb : phoneRegexTest f.customerPhone = false :=
    phoneRegexTest_of_strip_false _ h
  have hv : validationError f today = some phoneErrorMsg := by
    simp [validationError, hb]
  refine ⟨?_, ?_, ?_⟩ <;> simp [submitReservation, hv, errorOutcome]

/-- Witness for C2 at the concrete rejected phone 1234567890. -/
theorem submitReservation_bad_phone_rejected_witness :
    (submitReservation [] { sampleForm with customerPhone := "1234567890" }
        sampleToday true (Except.ok "r1") 5).store = []
    ∧ (submitReservation [] { sampleForm with customerPhone := "1234567890" }
        sampleToday true (Except.ok "r1") 5).networkCalls = 0 := by
  have h := submitReservation_bad_phone_rejected []
    { sampleForm with customerPhone := "1234567890" } sampleToday true
    (Except.ok "r1") 5 (by decide)
  exact ⟨h.1, h.2.1⟩

/-- C3: when the reservation date parses to a calendar day strictly before
today, the submission is rejected before any write (the collection is
unchanged and no backend call is issued); when the parsed day is today or
later, the past-date check does not reject it. -/
theorem submitReservation_past_date_rejected
    (store : List Reservation) (f : FormData) (today : Ymd)
    (firebaseReady : Bool) (res : Except (Option String) String) (now : Nat)
    (d : Ymd) (hp : parseYMD f.reservationDate = some d) :
    (ymdLt d today = true →
      (submitReservation store f today firebaseReady res now).store = store
      ∧ (submitReservation store f today firebaseReady res now).networkCalls = 0)
    ∧ (ymdLt d today = false →
      dateCheckRejects f.reservationDate today = false) := by
  constructor
  · intro hlt
    have hd : dateCheckRejects f.reservationDate today = true := by
      unfold dateCheckRejects
      rw [hp]
      exact hlt
    cases hb : phoneRegexTest f.customerPhone with
    | false =>
      have hv : validationError f today = some phoneErrorMsg := by
        simp [validationError, hb]
      constructor <;> simp [submitReservation, hv, errorOutcome]
    | true =>
      have hv : validationError f today = some dateErrorMsg := by
        simp [validationError, hb, hd]
      constructor <;> simp [submitReservation, hv, errorOutcome]
  · intro hge
    unfold dateCheckRejects
    rw [hp]
    exact hge

/-- Witness for C3: a concrete past date is rejected with no write, and a
concrete future date passes the date check. -/
theorem submitReservation_past_date_rejected_witness :
    (submitReservation [] { sampleForm with reservationDate := "2024-01-01" }
        sampleToday true (Except.ok "r1") 5).store = []
    ∧ (submitReservation [] { sampleForm with reservationDate := "2024-01-01" }
        sampleToday true (Except.ok "r1") 5).networkCalls = 0
    ∧ dateCheckRejects sampleForm.reservationDate sampleToday = false := by
  have hpast := submitReservation_past_date_rejected []
    { sampleForm with reservationDate := "2024-01-01" } sampleToday true
    (Except.ok "r1") 5 ⟨2024, 1, 1⟩ (by decide)
  have hfut := submitReservation_past_date_rejected [] sampleForm sampleToday
    true (Except.ok "r1") 5 ⟨2026, 1, 10⟩ (by decide)
  exact ⟨(hpast.1 (by decide)).1, (hpast.1 (by decide)).2, hfut.2 (by decide)⟩

/-- C8: on any exception during submission the catch block shows the error
message when the error carries one, prefixed by the error mark, else the
generic fallback; it re-enables the submit button, leaves the entered field
values and the collection untouched, and never issues more than one backend
call (no automatic retry). -/
theorem submitReservation_error_handling
    (store : List Reservation) (f : FormData) (today : Ymd) (now : Nat) :
    (∀ (res : Except (Option String) String) (m : String),
      validationError f today = some m →
        (submitReservation store f today true res now).messageText = "✗ " ++ m
        ∧ (submitReservation store f today true res now).submitDisabled = false
        ∧ (submitReservation store f today true res now).fieldsCleared = false
        ∧ (submitReservation store f today true res now).store = store
        ∧ (submitReservation store f today true res now).networkCalls = 0)
    ∧ (∀ em : Option String, validationError f today = none →
        (submitReservation store f today true (Except.error em) now).messageText
            = "✗ " ++ em.getD fallbackMessage
        ∧ (submitReservation store f today true (Except.error em) now).submitDisabled = false
        ∧ (submitReservation store f today true (Except.error em) now).fieldsCleared = false
        ∧ (submitReservation store f today true (Except.error em) now).store = store)
    ∧ (∀ (ready : Bool) (res : Except (Option String) String),
        (submitReservation store f today ready res now).networkCalls ≤ 1) := by
  refine ⟨?_, ?_, ?_⟩
  · intro res m hm
    refine ⟨?_, ?_, ?_, ?_, ?_⟩ <;> simp [submitReservation, hm, errorOutcome]
  · intro em h
    refine ⟨?_, ?_, ?_, ?_⟩ <;> simp [submitReservation, h, errorOutcome]
  · intro ready res
    unfold submitReservation
    cases validationError f today <;> cases ready <;> cases res <;>
      simp [errorOutcome]

/-- Witness for C8: a validation error and a backend error without message,
each at concrete inputs. -/
theorem submitReservation_error_handling_witness :
    (submitReservation [] { sampleForm with customerPhone := "12" } sampleToday
        true (Except.ok "r1") 5).messageText = "✗ " ++ phoneErrorMsg
    ∧ (submitReservation [] { sampleForm with customerPhone := "12" } sampleToday
        true (Except.ok "r1") 5).submitDisabled = false
    ∧ (submitReservation [] sampleForm sampleToday true
        (Except.error none) 5).messageText = "✗ " ++ fallbackMessage
    ∧ (submitReservation [] sampleForm sampleToday true
        (Except.error none) 5).networkCalls ≤ 1 := by
  have h1 := submitReservation_error_handling []
    { sampleForm with customerPhone := "12" } sampleToday 5
  have h2 := submitReservation_error_handling [] sampleForm sampleToday 5
  refine ⟨(h1.1 (Except.ok "r1") phoneErrorMsg (by decide)).1,
    (h1.1 (Except.ok "r1") phoneErrorMsg (by decide)).2.1,
    (h2.2.1 none (by decide)).1, h2.2.2 true (Except.error none)⟩

/-! ## Notification Trigger (functions/index.js, sendReservationEmails) -/

/-- The fixed staff recipient list MANAGER_EMAILS. -/
def MANAGER_EMAILS : List String := ["biswas31@yahoo.com", "neilbiswas13@gmail.com"]

/-- One outbound email built by the trigger. -/
inductive EmailMsg where
  | staff (recipient : String)
  | customer (recipient : String)
deriving DecidableEq, Repr

/-- JavaScript truthiness of the optional customerEmail field: absent or
empty strings are falsy. -/
def emailTruthy : Option String → Bool
  | none => false
  | some e => !(e == "")

/-- The set of dispatches the trigger builds: one manager notification per
configured staff address, plus one customer confirmation when the
customerEmail field is truthy (the falsy branch contributes an already
resolved promise, not a dispatch). -/
def buildDispatches (r : Reservation) : List EmailMsg :=
  MANAGER_EMAILS.map EmailMsg.staff
    ++ (match r.customerEmail with
        | some e => if e == "" then [] else [EmailMsg.customer e]
        | none => [])

/-- The settled outcome of Promise.all over the dispatches: none when every
send succeeded, otherwise the message of a failing send (the first in list
order, standing for the first rejection observed). -/
def firstFailure (send : EmailMsg → Except String Unit) :
    List EmailMsg → Option String
  | [] => none
  | n :: rest =>
    match send n with
    | .error m => some m
    | .ok _ => firstFailure send rest

/-- Result of one trigger invocation: whether it reported success, the
reservation document afterwards (the catch block annotates it), and the
error re-signalled to the platform, if any. -/
structure TriggerOutcome where
  succeeded : Bool
  doc : Reservation
  thrownError : Option String
deriving DecidableEq, Repr

/-- One invocation of the sendReservationEmails trigger on a newly created
reservation document: dispatch all built emails; if every send succeeds the
trigger returns success; otherwise the catch block writes emailError (the
failure message) and emailErrorTimestamp (server time) onto the document
and throws a wrapping error back to the platform. -/
def sendReservationEmails (r : Reservation) (now : Nat)
    (send : EmailMsg → Except String Unit) : TriggerOutcome :=
  match firstFailure send (buildDispatches r) with
  | none => { succeeded := true, doc := r, thrownError := none }
  | some m =>
    { succeeded := false
    , doc := { r with emailError := some m, emailErrorTimestamp := some now }
    , thrownError := some ("Failed to send emails: " ++ m) }

/-- No failure is found exactly when every dispatch succeeds. -/
theorem firstFailure_eq_none_iff (send : EmailMsg → Except String Unit)
    (ns : List EmailMsg) :
    firstFailure send ns = none ↔ ∀ n ∈ ns, send n = Except.ok () := by
  induction ns with
  | nil => simp [firstFailure]
  | cons n rest ih =>
    rcases hs : send n with em | u
    · constructor
      · intro h
        unfold firstFailure at h
        rw [hs] at h
        exact absurd h (by simp)
      · intro h
        have hn := h n (List.mem_cons_self n rest)
        rw [hs] at hn
        exact absurd hn (by simp)
    · constructor
      · intro h m hm
        unfold firstFailure at h
        rw [hs] at h
        rcases List.mem_cons.mp hm with rfl | hm2
        · rw [hs]
        · exact ih.mp h m hm2
      · intro h
        unfold firstFailure
        rw [hs]
        exact ih.mpr fun m hm => h m (List.mem_cons_of_mem n hm)

/-- C4: the trigger builds one notification per configured staff recipient
plus one customer confirmation exactly when customerEmail is present
(non-empty); it reports success precisely when every dispatch succeeds; and
on any dispatch failure it writes emailError with the failure message and
emailErrorTimestamp with the server time onto the originating document and
re-signals a wrapping failure to the platform. -/
theorem sendReservationEmails_spec (r : Reservation) (now : Nat)
    (send : EmailMsg → Except String Unit) :
    (buildDispatches r).length
        = MANAGER_EMAILS.length + (if emailTruthy r.customerEmail then 1 else 0)
    ∧ (r.customerEmail = none →
        buildDispatches r = MANAGER_EMAILS.map EmailMsg.staff)
    ∧ (∀ e, r.customerEmail = some e → e ≠ "" →
        buildDispatches r
          = MANAGER_EMAILS.map EmailMsg.staff ++ [EmailMsg.customer e])
    ∧ ((sendReservationEmails r now send).succeeded = true
        ↔ ∀ n ∈ buildDispatches r, send n = Except.ok ())
    ∧ (∀ m, firstFailure send (buildDispatches r) = some m →
        (sendReservationEmails r now send).doc.emailError = some m
        ∧ (sendReservationEmails r now send).doc.emailErrorTimestamp = some now
        ∧ (sendReservationEmails r now send).thrownError
            = some ("Failed to send emails: " ++ m)
        ∧ (sendReservationEmails r now send).succeeded = false) := by
  refine ⟨?_, ?_, ?_, ?_, ?_⟩
  · unfold buildDispatches emailTruthy
    rcases r.customerEmail with _ | e
    · simp
    · by_cases he : e = "" <;> simp [he]
  · intro h
    unfold buildDispatches
    rw [h]
    simp
  · intro e he hne
    unfold buildDispatches
    rw [he]
    simp [hne]
  · unfold sendReservationEmails
    rcases hf : firstFailure send (buildDispatches r) with _ | m
    · simpa using (firstFailure_eq_none_iff send (buildDispatches r)).mp hf
    · simp only [Bool.false_eq_true, false_iff]
      intro hall
      have h2 := (firstFailure_eq_none_iff send (buildDispatches r)).mpr hall
      rw [hf] at h2
      exact Option.noConfusion h2
  · intro m hm
    unfold sendReservationEmails
    rw [hm]
    exact ⟨rfl, rfl, rfl, rfl⟩

/-- A sample pending reservation document used by witnesses. -/
def sampleReservation : Reservation :=
  { id := "r1"
  , customerName := "Asha Rao"
  , customerPhone := "9876543210"
  , customerEmail := some "asha@example.com"
  , partySize := "2"
  , reservationDate := "2026-01-10"
  , reservationTime := "19:00"
  , specialRequests := none
  , status := "pending"
  , createdAt := 5
  , updatedAt := 5 }

/-- A concrete dispatch function whose staff sends fail. -/
def failingSend : EmailMsg → Except String Unit
  | EmailMsg.staff _ => Except.error "smtp down"
  | EmailMsg.customer _ => Except.ok ()

/-- Witness for C4 at a concrete reservation and a failing dispatch. -/
theorem sendReservationEmails_spec_witness :
    (buildDispatches sampleReservation).length = 3
    ∧ (sendReservationEmails sampleReservation 9 failingSend).doc.emailError
        = some "smtp down"
    ∧ (sendReservationEmails sampleReservation 9 failingSend).thrownError
        = some "Failed to send emails: smtp down"
    ∧ (sendReservationEmails sampleReservation 9 failingSend).succeeded = false := by
  have h := sendReservationEmails_spec sampleReservation 9 failingSend
  have hfail := h.2.2.2.2 "smtp down" (by decide)
  exact ⟨by rw [h.1]; decide, hfail.1, hfail.2.2.1, hfail.2.2.2⟩

/-! ## Admin Console: modal actions and status transitions -/

/-- The three controls the reservation-details modal can expose. -/
inductive AdminControl where
  | confirmBtn
  | cancelBtn
  | deleteBtn
deriving DecidableEq, Repr

/-- The controls rendered by the details modal for a given current status:
the confirm button only when the status is pending, the cancel button
unless the status is already cancelled, and always the delete button. -/
def modalActions (status : String) : List AdminControl :=
  (if status = "pending" then [AdminControl.confirmBtn] else [])
    ++ (if status = "cancelled" then [] else [AdminControl.cancelBtn])
    ++ [AdminControl.deleteBtn]

/-- The status value each control writes through
updateReservationStatus: confirm writes confirmed, cancel writes cancelled,
delete performs no status write. -/
def controlWrites : AdminControl → Option String
  | AdminControl.confirmBtn => some "confirmed"
  | AdminControl.cancelBtn => some "cancelled"
  | AdminControl.deleteBtn => none

/-- updateReservationStatus: write the new status and refresh updatedAt to
the server time of the write, leaving every other field as it is. -/
def updateReservationStatus (r : Reservation) (newStatus : String)
    (serverNow : Nat) : Reservation :=
  { r with status := newStatus, updatedAt := serverNow }

/-- C5: the confirm control is exposed exactly when the current status is
pending, the cancel control exactly when the status is not cancelled (so
confirm from confirmed or cancelled is a no-op exposed by no control), and
every status value written through an exposed control lies in the
three-value enumeration. -/
theorem modalActions_state_machine (status : String) :
    (AdminControl.confirmBtn ∈ modalActions status ↔ status = "pending")
    ∧ (AdminControl.cancelBtn ∈ modalActions status ↔ status ≠ "cancelled")
    ∧ (∀ c ∈ modalActions status, ∀ st, controlWrites c = some st →
        st = "pending" ∨ st = "confirmed" ∨ st = "cancelled") := by
  refine ⟨?_, ?_, ?_⟩
  · unfold modalActions
    by_cases hp : status = "pending"
    · subst hp
      decide
    · by_cases hc : status = "cancelled"
      · subst hc
        decide
      · rw [if_neg hp, if_neg hc]
        simp [hp]
  · unfold modalActions
    by_cases hp : status = "pending"
    · subst hp
      decide
    · by_cases hc : status = "cancelled"
      · subst hc
        decide
      · rw [if_neg hp, if_neg hc]
        simp [hc]
  · intro c hc st hst
    cases c with
    | confirmBtn =>
      right; left
      have : some "confirmed" = some st := by rw [← hst]; rfl
      injection this with h2
      exact h2.symm
    | cancelBtn =>
      right; right
      have : some "cancelled" = some st := by rw [← hst]; rfl
      injection this with h2
      exact h2.symm
    | deleteBtn => exact Option.noConfusion hst

/-- Witness for C5 at concrete statuses. -/
theorem modalActions_state_machine_witness :
    AdminControl.confirmBtn ∈ modalActions "pending"
    ∧ (AdminControl.confirmBtn ∈ modalActions "confirmed" → False)
    ∧ (AdminControl.cancelBtn ∈ modalActions "cancelled" → False)
    ∧ ("confirmed" = "pending" ∨ "confirmed" = "confirmed"
        ∨ "confirmed" = "cancelled") := by
  refine ⟨(modalActions_state_machine "pending").1.mpr rfl, ?_, ?_, ?_⟩
  · intro h
    exact absurd ((modalActions_state_machine "confirmed").1.mp h) (by decide)
  · intro h
    exact (modalActions_state_machine "cancelled").2.1.mp h rfl
  · exact (modalActions_state_machine "pending").2.2 AdminControl.confirmBtn
      (by decide) "confirmed" rfl

/-- C6: confirming a pending reservation sets its status to confirmed and
advances updatedAt to the server time of the write, while createdAt and all
other fields keep their previous values. -/
theorem updateReservationStatus_confirm_frame (r : Reservation) (t : Nat)
    (hp : r.status = "pending") (ht : r.updatedAt < t) :
    (updateReservationStatus r "confirmed" t).status = "confirmed"
    ∧ (updateReservationStatus r "confirmed" t).updatedAt = t
    ∧ r.updatedAt < (updateReservationStatus r "confirmed" t).updatedAt
    ∧ (updateReservationStatus r "confirmed" t).createdAt = r.createdAt
    ∧ (updateReservationStatus r "confirmed" t).id = r.id
    ∧ (updateReservationStatus r "confirmed" t).customerName = r.customerName
    ∧ (updateReservationStatus r "confirmed" t).customerPhone = r.customerPhone
    ∧ (updateReservationStatus r "confirmed" t).customerEmail = r.customerEmail
    ∧ (updateReservationStatus r "confirmed" t).partySize = r.partySize
    ∧ (updateReservationStatus r "confirmed" t).reservationDate = r.reservationDate
    ∧ (updateReservationStatus r "confirmed" t).reservationTime = r.reservationTime
    ∧ (updateReservationStatus r "confirmed" t).specialRequests = r.specialRequests
    ∧ (updateReservationStatus r "confirmed" t).emailError = r.emailError
    ∧ (updateReservationStatus r "confirmed" t).emailErrorTimestamp
        = r.emailErrorTimestamp :=
  ⟨rfl, rfl, ht, rfl, rfl, rfl, rfl, rfl, rfl, rfl, rfl, rfl, rfl, rfl⟩

/-- Witness for C6 on a concrete pending document. -/
theorem updateReservationStatus_confirm_frame_witness :
    (updateReservationStatus sampleReservation "confirmed" 9).status = "confirmed"
    ∧ (updateReservationStatus sampleReservation "confirmed" 9).createdAt
        = sampleReservation.createdAt
    ∧ sampleReservation.updatedAt
        < (updateReservationStatus sampleReservation "confirmed" 9).updatedAt := by
  have h := updateReservationStatus_confirm_frame sampleReservation 9
    (by decide) (by decide)
  exact ⟨h.1, h.2.2.2.1, h.2.2.1⟩

/-! ## Admin Console: filtering (applyFilters) -/

/-- Character-wise lowercasing, the effect of toLowerCase on the ASCII
letters, digits and punctuation appearing in names and phone numbers. -/
def strToLower (s : String) : String := String.mk (s.data.map Char.toLower)

/-- Whether the first list begins with the second. -/
def startsWithChars : List Char → List Char → Bool
  | _, [] => true
  | [], _ :: _ => false
  | a :: as, b :: bs => a == b && startsWithChars as bs

/-- Whether the second list occurs contiguously inside the first. -/
def containsSub : List Char → List Char → Bool
  | [], needle => needle.isEmpty
  | a :: as, needle => startsWithChars (a :: as) needle || containsSub as needle

/-- The String.prototype.includes test used by the search filter. -/
def strIncludes (hay needle : String) : Bool := containsSub hay.data needle.data

/-- The free-text search haystack built by applyFilters: the customer name,
a space, and the customer phone, lowercased. -/
def searchTextOf (r : Reservation) : String :=
  strToLower (r.customerName ++ " " ++ r.customerPhone)

/-- The per-reservation predicate of applyFilters: keep the reservation
unless the status filter differs from its status (when not "all"), or a set
date filter differs from its date, or a non-empty lowercased search string
does not occur in the search haystack. -/
def reservationMatches (r : Reservation)
    (statusFilter dateFilter search : String) : Bool :=
  (statusFilter == "all" || r.status == statusFilter)
    && (dateFilter == "" || r.reservationDate == dateFilter)
    && (strToLower search == ""
        || strIncludes (searchTextOf r) (strToLower search))

/-- applyFilters recomputes the derived list by filtering the full
in-memory list with the conjunctive predicate; it touches no store. -/
def applyFilters (allRes : List Reservation)
    (statusFilter dateFilter search : String) : List Reservation :=
  allRes.filter fun r => reservationMatches r statusFilter dateFilter search

/-- startsWithChars holds exactly when the second list is a prefix. -/
theorem startsWithChars_iff (n l : List Char) :
    startsWithChars l n = true ↔ ∃ t, l = n ++ t := by
  induction n generalizing l with
  | nil => simp [startsWithChars]
  | cons b bs ih =>
    cases l with
    | nil =>
      simp [startsWithChars]
    | cons a as =>
      simp only [startsWithChars, Bool.and_eq_true, beq_iff_eq, ih,
        List.cons_append]
      constructor
      · rintro ⟨rfl, t, rfl⟩
        exact ⟨t, rfl⟩
      · rintro ⟨t, h⟩
        injection h with h1 h2
        exact ⟨h1, t, h2⟩

/-- containsSub holds exactly when the needle occurs contiguously. -/
theorem containsSub_iff (hay n : List Char) :
    containsSub hay n = true ↔ ∃ p t, hay = p ++ n ++ t := by
  induction hay with
  | nil =>
    simp only [containsSub, List.isEmpty_iff]
    constructor
    · rintro rfl
      exact ⟨[], [], rfl⟩
    · rintro ⟨p, t, h⟩
      rcases List.append_eq_nil.mp h.symm with ⟨h1, rfl⟩
      rcases List.append_eq_nil.mp h1 with ⟨rfl, rfl⟩
      rfl
  | cons a as ih =>
    simp only [containsSub, Bool.or_eq_true, startsWithChars_iff n, ih]
    constructor
    · rintro (⟨t, h⟩ | ⟨p, t, h⟩)
      · exact ⟨[], t, by simpa using h⟩
      · exact ⟨a :: p, t, by simp [h]⟩
    · rintro ⟨p, t, h⟩
      cases p with
      | nil =>
        left
        exact ⟨t, by simpa using h⟩
      | cons c cs =>
        right
        rw [List.cons_append, List.cons_append] at h
        injection h with h1 h2
        exact ⟨cs, t, h2⟩

/-- C7 counterexample: the claim reads the search haystack as customerName
concatenated directly with customerPhone, but the code joins them with a
space. For the record with name Asha Rao and phone 9876543210 and the
search string rao9, the claimed predicate holds (rao9 occurs in the direct
concatenation) while applyFilters excludes the record, with the status and
date filters passing. -/
theorem applyFilters_direct_concat_counterexample :
    applyFilters [sampleReservation] "all" "" "rao9" = []
    ∧ strIncludes
        (strToLower (sampleReservation.customerName
          ++ sampleReservation.customerPhone))
        (strToLower "rao9") = true
    ∧ sampleReservation ∈ [sampleReservation] := by
  refine ⟨by decide, by decide, by decide⟩

/-- C7 amended: a reservation is in the derived list exactly when it is in
the full list, the status filter is "all" or equals its status, the date
filter is unset or equals its reservationDate, and the lowercased search
string is empty or occurs contiguously in the lowercased haystack
customerName, one space, customerPhone; and re-filtering an already
filtered list with the same inputs yields the identical list (the
recomputation is a pure function of the in-memory list and the three
inputs, with no re-query of any store). -/
theorem applyFilters_spec (allRes : List Reservation) (sf df q : String)
    (r : Reservation) :
    (r ∈ applyFilters allRes sf df q ↔
      r ∈ allRes
      ∧ (sf = "all" ∨ r.status = sf)
      ∧ (df = "" ∨ r.reservationDate = df)
      ∧ (strToLower q = ""
          ∨ ∃ p t, (searchTextOf r).data = p ++ (strToLower q).data ++ t))
    ∧ applyFilters (applyFilters allRes sf df q) sf df q
        = applyFilters allRes sf df q := by
  constructor
  · rw [applyFilters, List.mem_filter]
    simp only [reservationMatches, Bool.and_eq_true, Bool.or_eq_true,
      beq_iff_eq, strIncludes, containsSub_iff, and_assoc]
  · show List.filter _ (List.filter _ allRes) = List.filter _ allRes
    apply List.filter_eq_self.mpr
    intro a ha
    exact (List.mem_filter.mp ha).2

/-! ## Submit control after a successful submission -/

/-- Page state relevant to the submit control after a success. -/
structure SuccessViewState where
  submitDisabled : Bool
  resultDisplayed : Bool
deriving DecidableEq, Repr

/-- State right after the success path has rendered its result view: the
submit control is disabled and the result view is on screen. -/
def postSuccessState : SuccessViewState := ⟨true, true⟩

/-- Events that can reach the page after the success path returns. -/
inductive PageEvent where
  | timerElapsed
  | userInteraction
  | pageReload
deriving DecidableEq, Repr

/-- The message variant (public/js/reservations.js): its success path has
registered a three-second timer whose callback re-enables the submit
button while the success message stays displayed; a page reload restores
the fresh form; other interactions change nothing. -/
def stepMessageVariant (s : SuccessViewState) : PageEvent → SuccessViewState
  | PageEvent.timerElapsed => { s with submitDisabled := false }
  | PageEvent.pageReload => ⟨false, false⟩
  | PageEvent.userInteraction => s

/-- The success-UI variant (the unnamed reservations file): no timer is
registered; the booking widget is replaced by the success view, and only a
full page reload (Back to Home, or Make Another Reservation, which calls
location.reload) restores the form with a fresh enabled control. -/
def stepSuccessUIVariant (s : SuccessViewState) : PageEvent → SuccessViewState
  | PageEvent.pageReload => ⟨false, false⟩
  | PageEvent.timerElapsed => s
  | PageEvent.userInteraction => s

/-- C9 counterexample: in the message variant the three-second timer
re-enables the submit control while the result view is still displayed, so
the control does not stay disabled until the result view is dismissed or
the page is reset, and an event other than those two re-enables it. -/
theorem submit_control_reenabled_by_timer :
    (stepMessageVariant postSuccessState PageEvent.timerElapsed).resultDisplayed
        = true
    ∧ (stepMessageVariant postSuccessState PageEvent.timerElapsed).submitDisabled
        = false := by
  decide

/-- C9 amended: in the success-UI variant the submit control stays disabled
after a successful submission, with the result view displayed, under every
event sequence containing no page reload; in the message variant the
control is re-enabled by the three-second timer while the result view is
displayed. -/
theorem submit_control_stays_disabled (evs : List PageEvent)
    (h : PageEvent.pageReload ∉ evs) :
    (evs.foldl stepSuccessUIVariant postSuccessState).submitDisabled = true
    ∧ (evs.foldl stepSuccessUIVariant postSuccessState).resultDisplayed = true
    ∧ (stepMessageVariant postSuccessState PageEvent.timerElapsed).submitDisabled
        = false := by
  have key : ∀ l : List PageEvent, PageEvent.pageReload ∉ l →
      l.foldl stepSuccessUIVariant postSuccessState = postSuccessState := by
    intro l
    induction l with
    | nil => intro _; rfl
    | cons e rest ih =>
      intro hl
      have he : e ≠ PageEvent.pageReload := by
        intro hh
        exact hl (hh ▸ List.mem_cons_self e rest)
      have hr : PageEvent.pageReload ∉ rest :=
        fun hm => hl (List.mem_cons_of_mem e hm)
      have step_eq : stepSuccessUIVariant postSuccessState e = postSuccessState := by
        cases e with
        | timerElapsed => rfl
        | userInteraction => rfl
        | pageReload => exact absurd rfl he
      rw [List.foldl_cons, step_eq]
      exact ih hr
  rw [key evs h]
  exact ⟨rfl, rfl, rfl⟩

/-- Witness for the amended C9 at a concrete reload-free event sequence. -/
theorem submit_control_stays_disabled_witness :
    (([PageEvent.timerElapsed, PageEvent.userInteraction]).foldl
        stepSuccessUIVariant postSuccessState).submitDisabled = true
    ∧ (([PageEvent.timerElapsed, PageEvent.userInteraction]).foldl
        stepSuccessUIVariant postSuccessState).resultDisplayed = true := by
  have h := submit_control_stays_disabled
    [PageEvent.timerElapsed, PageEvent.userInteraction] (by decide)
  exact ⟨h.1, h.2.1⟩

/-! ## Authentication service: getUserData and onAuthStateChanged -/

/-- A users/{uid} profile document as created by the sign-up handler. -/
structure UserProfile where
  uid : String
  email : String
  displayName : String
  role : String
  reservations : List String
  emailNotifications : Bool
  smsNotifications : Bool
deriving DecidableEq, Repr

/-- The uniform result shape of getUserData. -/
structure GetUserDataResult where
  success : Bool
  data : Option UserProfile
  error : Option String
deriving DecidableEq, Repr

/-- getUserData: read users/{uid}; an existing document yields success with
its data; a missing document yields the distinct not-found error; a thrown
read error is caught and yields the fetch-failure error. It never throws
past its boundary. -/
def getUserData (profiles : String → Option UserProfile) (readThrows : Bool)
    (uid : String) : GetUserDataResult :=
  if readThrows then ⟨false, none, some "Failed to fetch user data"⟩
  else
    match profiles uid with
    | some p => ⟨true, some p, none⟩
    | none => ⟨false, none, some "User data not found"⟩

/-- The authentication record of a signed-in session. -/
structure AuthUser where
  uid : String
  email : Option String
  displayName : Option String
deriving DecidableEq, Repr

/-- The user object handed to the auth-state callback: the three auth
record fields, plus the profile fields merged in when the profile read
succeeded (spreading the undefined data field of a failed read merges
nothing). -/
structure CallbackUser where
  uid : String
  email : Option String
  displayName : Option String
  profile : Option UserProfile
deriving DecidableEq, Repr

/-- The argument of one auth-state callback delivery. -/
structure AuthCallbackArg where
  isAuthenticated : Bool
  user : Option CallbackUser
deriving DecidableEq, Repr

/-- One delivery of the onAuthStateChanged listener: for a signed-in user
it awaits getUserData and always calls the callback with isAuthenticated
true, the auth fields, and whatever data field the read produced; for a
signed-out state it passes isAuthenticated false and a null user. -/
def onAuthStateChangedArg (profiles : String → Option UserProfile)
    (readThrows : Bool) : Option AuthUser → AuthCallbackArg
  | none => ⟨false, none⟩
  | some au =>
    ⟨true, some ⟨au.uid, au.email, au.displayName,
      (getUserData profiles readThrows au.uid).data⟩⟩

/-- C10: for a signed-in user whose profile document is missing or whose
profile read throws, the callback is still invoked (the delivered argument
is a total function of the state, nothing escapes) with isAuthenticated
true and a user holding exactly the auth-record uid, email and
displayName, with no profile fields merged in. -/
theorem onAuthStateChangedArg_missing_profile
    (profiles : String → Option UserProfile) (readThrows : Bool)
    (au : AuthUser)
    (h : profiles au.uid = none ∨ readThrows = true) :
    onAuthStateChangedArg profiles readThrows (some au)
      = ⟨true, some ⟨au.uid, au.email, au.displayName, none⟩⟩ := by
  unfold onAuthStateChangedArg
  have hd : (getUserData profiles readThrows au.uid).data = none := by
    unfold getUserData
    rcases h with hnone | hthrow
    · cases readThrows
      · simp [hnone]
      · simp
    · rw [hthrow]
      simp
  simp only [hd]

/-- Witness for C10 at a concrete signed-in user with no profile. -/
theorem onAuthStateChangedArg_missing_profile_witness :
    onAuthStateChangedArg (fun _ => none) false
        (some ⟨"u1", some "a@b.c", some "A"⟩)
      = ⟨true, some ⟨"u1", some "a@b.c", some "A", none⟩⟩ :=
  onAuthStateChangedArg_missing_profile (fun _ => none) false
    ⟨"u1", some "a@b.c", some "A"⟩ (Or.inl rfl)

end OneSip
